import Mathlib

/-!
Shallow embedding of the repository-analysis pipeline of the
`NairobiDevOps_Microsoft` repository ("Repo Guardian"): the dependency
analyzer (`apps/backend/src/dependency-analyzer.ts`), the static pattern
analyzer (`apps/backend/src/static-analyzer.ts`), the fallback risk
summarizer (`generateMockSummary` and friends in the AI-summary module),
the orchestrator's language detection and demo short-circuit
(`apps/backend/src/analyzer.ts`), and the upload route's text filter
(`isTextContent` in `apps/backend/src/routes/upload.ts`).

JavaScript strings are modelled as Lean `String`s over their character
lists; `String.prototype.includes` becomes substring containment
(`strIncludes`), `trim` becomes `jsTrim`, `split` becomes `splitOnChar`,
`toLowerCase` becomes `toLowerStr` — all implemented by structural
recursion over the character list so that every definition evaluates
inside the kernel.  File-system access (reading the manifest, walking the
tree) is made explicit: functions take the already-read content, an
`Option` for a possibly-missing file, or an `Except` for a possibly
unparseable one (`fs.readJson` throws on malformed JSON).
-/

namespace RepoGuardian

/-- `pat` occurs at the head of `s` (character-list version of a JS
`startsWith` test used to build substring containment). -/
def listStarts : List Char → List Char → Bool
  | [], _ => true
  | _ :: _, [] => false
  | a :: as, b :: bs => a == b && listStarts as bs

/-- `pat` occurs somewhere in `s`: JS `String.prototype.includes`. -/
def listHasSub (pat : List Char) : List Char → Bool
  | [] => listStarts pat []
  | c :: rest => listStarts pat (c :: rest) || listHasSub pat rest

/-- JS `s.includes(pat)`. -/
def strIncludes (s pat : String) : Bool :=
  listHasSub pat.toList s.toList

/-- JS `s.startsWith(pat)`. -/
def strStarts (s pat : String) : Bool :=
  listStarts pat.toList s.toList

/-- JS `s.endsWith(pat)`. -/
def strEndsWith (s pat : String) : Bool :=
  listStarts pat.toList.reverse s.toList.reverse

/-- Drop the last `n` characters of `s`. -/
def strDropRight (s : String) (n : Nat) : String :=
  String.mk (s.toList.take (s.toList.length - n))

/-- Split on a single-character separator: JS `s.split(sep)` (the list is
never empty; an empty string yields `[""]`). -/
def splitOnCharGo (sep : Char) : List Char → List Char → List String
  | [], acc => [String.mk acc.reverse]
  | c :: rest, acc =>
    if c == sep then String.mk acc.reverse :: splitOnCharGo sep rest []
    else splitOnCharGo sep rest (c :: acc)

/-- JS `s.split(sep)` for a one-character separator. -/
def splitOnChar (sep : Char) (s : String) : List String :=
  splitOnCharGo sep s.toList []

/-- JS `content.split('\n')`. -/
def splitLines (s : String) : List String :=
  splitOnChar '\n' s

/-- JS whitespace (the characters relevant to source lines: space, tab,
newline, carriage return, vertical tab, form feed). -/
def jsWsChar (c : Char) : Bool :=
  c == ' ' || c == '\t' || c == '\n' || c == '\r' ||
  c.toNat == 11 || c.toNat == 12

/-- JS `s.trim()`. -/
def jsTrim (s : String) : String :=
  String.mk (((s.toList.dropWhile jsWsChar).reverse.dropWhile
    jsWsChar).reverse)

/-- JS `s.toLowerCase()` (ASCII case mapping; all scanned patterns are
ASCII). -/
def toLowerStr (s : String) : String :=
  String.mk (s.toList.map Char.toLower)

/-- Dependency / vulnerability severity scale (`'low' | 'medium' | 'high'
| 'critical'` in the TypeScript model, also reused for the AISummary
`riskLevel`). -/
inductive Sev where
  | low
  | medium
  | high
  | critical
deriving DecidableEq, Repr

/-- Static-finding severity scale (`'error' | 'warning' | 'info'`). -/
inductive FSev where
  | error
  | warning
  | info
deriving DecidableEq, Repr

/-- An entry of `DependencyAnalysis.outdated`. -/
structure OutdatedDep where
  name : String
  current : String
  latest : String
  severity : Sev
deriving DecidableEq, Repr

/-- An entry of `DependencyAnalysis.vulnerable`. -/
structure VulnerableDep where
  name : String
  version : String
  vulnerability : String
  severity : Sev
deriving DecidableEq, Repr

/-- `DependencyAnalysis` from `dependency-analyzer.ts`. -/
structure DependencyAnalysis where
  total : Nat
  outdated : List OutdatedDep
  vulnerable : List VulnerableDep
deriving DecidableEq, Repr

/-- A single static-analysis finding (an element of
`StaticAnalysisResult.errors`); `rule` is optional in the source. -/
structure Finding where
  file : String
  line : Nat
  message : String
  severity : FSev
  rule : Option String
deriving DecidableEq, Repr

/-- `StaticAnalysisResult.summary`. -/
structure StaticSummary where
  totalFiles : Nat
  totalErrors : Nat
  totalWarnings : Nat
deriving DecidableEq, Repr

/-- `StaticAnalysisResult` from `static-analyzer.ts`. -/
structure StaticAnalysisResult where
  errors : List Finding
  summary : StaticSummary
deriving DecidableEq, Repr

/-- `AISummary` from the AI-summary module. -/
structure AISummary where
  riskLevel : Sev
  summary : String
  recommendations : List String
  priorityFixes : List String
deriving DecidableEq, Repr

/-! ## Fallback risk summarizer (`generateMockSummary`) -/

/-- `e.rule?.includes(pat)`: optional chaining gives `false` (falsy) when
`rule` is absent. -/
def ruleIncludes (f : Finding) (pat : String) : Bool :=
  match f.rule with
  | some r => strIncludes r pat
  | none => false

/-- The `securityErrors` filter of `generateRecommendations`. -/
def isSecurityFinding (f : Finding) : Bool :=
  ruleIncludes f "security" || strIncludes (toLowerStr f.message) "security"

/-- The `performanceIssues` filter of `generateRecommendations`. -/
def isPerformanceFinding (f : Finding) : Bool :=
  ruleIncludes f "performance" || strIncludes (toLowerStr f.message) "sync"

/-- `generateRecommendations` from the AI-summary module: rule-driven
recommendation list, falling back to three generic items, capped at 6. -/
def generateRecommendations (deps : DependencyAnalysis)
    (sa : StaticAnalysisResult) : List String :=
  let recs : List String :=
    (if deps.vulnerable.length > 0 then
      ["Update vulnerable dependencies to secure versions immediately",
       "Set up automated dependency scanning in your CI/CD pipeline"]
     else []) ++
    (if deps.outdated.length > 0 then
      ["Update outdated dependencies to latest stable versions",
       "Consider using dependency management tools like Dependabot or Renovate"]
     else []) ++
    (if (sa.errors.filter isSecurityFinding).length > 0 then
      ["Fix security vulnerabilities found in static analysis",
       "Implement input validation and sanitization",
       "Add security linting rules to prevent future issues"]
     else []) ++
    (if (sa.errors.filter isPerformanceFinding).length > 0 then
      ["Replace synchronous operations with asynchronous alternatives",
       "Implement proper error handling for async operations"]
     else []) ++
    (if sa.summary.totalWarnings > 5 then
      ["Set up code linting and formatting tools (ESLint, Prettier, etc.)",
       "Establish code review processes to catch issues early"]
     else [])
  let recs :=
    if recs.length == 0 then
      ["Continue following security best practices",
       "Keep dependencies updated regularly",
       "Maintain good code quality standards"]
    else recs
  recs.take 6

/-- The `criticalErrors` filter of `generatePriorityFixes`: error-severity
findings whose rule mentions security or whose message mentions injection
or eval. -/
def isCriticalError (f : Finding) : Bool :=
  f.severity == FSev.error &&
    (ruleIncludes f "security" ||
     strIncludes (toLowerStr f.message) "injection" ||
     strIncludes (toLowerStr f.message) "eval")

/-- `generatePriorityFixes` from the AI-summary module: critical then high
vulnerabilities, then security-flavoured static errors, then high-severity
outdated dependencies, capped at 5. -/
def generatePriorityFixes (deps : DependencyAnalysis)
    (sa : StaticAnalysisResult) : List String :=
  (((deps.vulnerable.filter (fun v => v.severity == Sev.critical)).map
      (fun v => "Update " ++ v.name ++ " to fix: " ++ v.vulnerability)) ++
   ((deps.vulnerable.filter (fun v => v.severity == Sev.high)).map
      (fun v => "Update " ++ v.name ++ " to fix: " ++ v.vulnerability)) ++
   ((sa.errors.filter isCriticalError).map
      (fun e => "Fix " ++ toLowerStr e.message ++ " in " ++ e.file ++ ":" ++
                toString e.line)) ++
   ((deps.outdated.filter (fun d => d.severity == Sev.high)).map
      (fun d => "Update " ++ d.name ++ " from " ++ d.current ++ " to " ++
                d.latest))).take 5

/-- The risk-level computation at the head of `generateMockSummary`. -/
def mockRiskLevel (deps : DependencyAnalysis)
    (sa : StaticAnalysisResult) : Sev :=
  let criticalIssues :=
    (deps.vulnerable.filter (fun v => v.severity == Sev.critical)).length
  let highIssues :=
    (deps.vulnerable.filter (fun v => v.severity == Sev.high)).length +
    (sa.errors.filter (fun e => e.severity == FSev.error)).length
  let mediumIssues :=
    (deps.outdated.filter (fun d => d.severity == Sev.medium)).length +
    (sa.errors.filter (fun e => e.severity == FSev.warning)).length
  if criticalIssues > 0 then Sev.critical
  else if highIssues > 2 then Sev.high
  else if highIssues > 0 || mediumIssues > 3 then Sev.medium
  else Sev.low

/-- `generateSummaryText`: deterministic template for the summary string
(concatenates counts, closes with a risk-level-appropriate sentence). -/
def generateSummaryText (deps : DependencyAnalysis)
    (sa : StaticAnalysisResult) (riskLevel : String) : String :=
  let totalVulns := deps.vulnerable.length
  let totalOutdated := deps.outdated.length
  let totalErrors := sa.summary.totalErrors
  let totalWarnings := sa.summary.totalWarnings
  let s := "This repository has been classified as " ++ riskLevel ++ " risk. "
  let s := if totalVulns > 0 then
      s ++ "Found " ++ toString totalVulns ++ " vulnerable " ++
        (if totalVulns == 1 then "dependency" else "dependencies") ++
        " with known security issues. "
    else s
  let s := if totalOutdated > 0 then
      s ++ toString totalOutdated ++ " " ++
        (if totalOutdated == 1 then "dependency is" else "dependencies are") ++
        " outdated. "
    else s
  let s := if totalErrors > 0 then
      let s := s ++ "Static analysis detected " ++ toString totalErrors ++
        " critical " ++ (if totalErrors == 1 then "issue" else "issues") ++ " "
      if totalWarnings > 0 then
        s ++ "and " ++ toString totalWarnings ++ " " ++
          (if totalWarnings == 1 then "warning" else "warnings") ++ ". "
      else s ++ ". "
    else if totalWarnings > 0 then
      s ++ "Static analysis found " ++ toString totalWarnings ++ " " ++
        (if totalWarnings == 1 then "warning" else "warnings") ++ ". "
    else s
  if riskLevel == "critical" then
    s ++ "Immediate action is required to address critical security vulnerabilities."
  else if riskLevel == "high" then
    s ++ "High priority issues should be addressed as soon as possible."
  else if riskLevel == "medium" then
    s ++ "Several issues should be addressed to improve security and code quality."
  else
    s ++ "The repository appears to be in good condition with only minor issues."

/-- The string the TypeScript union value is interpolated as. -/
def Sev.toText : Sev → String
  | Sev.low => "low"
  | Sev.medium => "medium"
  | Sev.high => "high"
  | Sev.critical => "critical"

/-- `generateMockSummary`: the deterministic fallback summarizer. -/
def generateMockSummary (deps : DependencyAnalysis)
    (sa : StaticAnalysisResult) : AISummary :=
  let riskLevel := mockRiskLevel deps sa
  { riskLevel := riskLevel
    summary := generateSummaryText deps sa riskLevel.toText
    recommendations := generateRecommendations deps sa
    priorityFixes := generatePriorityFixes deps sa }

/-! ## Dependency analyzer (`dependency-analyzer.ts`) -/

/-- A parsed semantic version `MAJOR.MINOR.PATCH` (the mock lookup tables
and the scenario inputs all use plain numeric triples; the `semver`
library throws on strings it cannot parse, modelled by `parseSemver`
returning `none`). -/
structure Semver where
  major : Nat
  minor : Nat
  patch : Nat
deriving DecidableEq, Repr

/-- Parse a decimal numeral; `none` on an empty or non-digit string. -/
def parseNat (s : String) : Option Nat :=
  if s.length > 0 && s.toList.all Char.isDigit then
    some (s.toList.foldl (fun acc c => 10 * acc + (c.toNat - 48)) 0)
  else none

/-- Parse `a.b.c` into a `Semver`; `none` when the string is not three
dot-separated numerals (the `semver` library throws a TypeError there). -/
def parseSemver (s : String) : Option Semver :=
  match splitOnChar '.' s with
  | [a, b, c] =>
    match parseNat a, parseNat b, parseNat c with
    | some ma, some mi, some pa => some ⟨ma, mi, pa⟩
    | _, _, _ => none
  | _ => none

/-- `semver.lt` on plain numeric triples: lexicographic order. -/
def semverLt (a b : Semver) : Bool :=
  a.major < b.major ||
  (a.major == b.major &&
    (a.minor < b.minor || (a.minor == b.minor && a.patch < b.patch)))

/-- `version.replace(/[\^~]/, '')`: remove the first occurrence (no `g`
flag) of `^` or `~`. -/
def stripRangeChar (s : String) : String :=
  let rec go : List Char → List Char
    | [] => []
    | c :: rest => if c == '^' || c == '~' then rest else c :: go rest
  String.mk (go s.toList)

/-- First-match association lookup, modelling indexing a JS object
literal by key. -/
def tblLookup (tbl : List (String × α)) (k : String) : Option α :=
  (tbl.find? (fun p => p.fst == k)).map Prod.snd

/-- `mockLatestVersions` of `analyzeJavaScriptDependencies`. -/
def jsMockLatestVersions : List (String × String) :=
  [("express", "4.18.2"), ("lodash", "4.17.21"), ("axios", "1.5.0"),
   ("react", "18.2.0"), ("vue", "3.3.4"), ("bcrypt", "5.1.0")]

/-- `mockVulnerabilities` of `analyzeJavaScriptDependencies`. -/
def jsMockVulnerabilities : List (String × String × Sev) :=
  [("lodash", ("Prototype Pollution (CVE-2019-10744)", Sev.high)),
   ("express", ("Open Redirect (CVE-2022-24999)", Sev.medium)),
   ("bcrypt", ("Timing Attack Vulnerability", Sev.medium))]

/-- A parsed `package.json`: the `dependencies` and `devDependencies`
objects as ordered key/value lists (JS object keys are distinct within
one object). -/
structure JsManifest where
  dependencies : List (String × String)
  devDependencies : List (String × String)
deriving DecidableEq, Repr

/-- `{...packageJson.dependencies, ...packageJson.devDependencies}`:
keys of the first object in order (values overridden by the second where
present), then keys only in the second, in order. -/
def mergeDeps (d dd : List (String × String)) : List (String × String) :=
  (d.map (fun p =>
      match tblLookup dd p.fst with
      | some v => (p.fst, v)
      | none => p)) ++
  dd.filter (fun p => (tblLookup d p.fst).isNone)

/-- The per-dependency body of the `analyzeJavaScriptDependencies` loop:
given `(name, declared-version)`, produce the outdated and/or vulnerable
records, or an error when `semver` throws on an unparseable version (this
only happens for names present in the latest-version table, since only
then is `semver.lt` reached). -/
def classifyJsDep (p : String × String) :
    Except String (List OutdatedDep × List VulnerableDep) := do
  let name := p.fst
  let currentVersion := stripRangeChar p.snd
  let outdated ←
    match tblLookup jsMockLatestVersions name with
    | none => pure []
    | some latestVersion =>
      match parseSemver currentVersion, parseSemver latestVersion with
      | some cur, some lat =>
        if semverLt cur lat then
          let severity :=
            if cur.major < lat.major then Sev.high
            else if cur.minor < lat.minor then Sev.medium
            else Sev.low
          pure [⟨name, currentVersion, latestVersion, severity⟩]
        else pure []
      | _, _ => Except.error ("TypeError: Invalid Version: " ++ currentVersion)
  let vulnerable :=
    match tblLookup jsMockVulnerabilities name with
    | some v => [⟨name, currentVersion, v.fst, v.snd⟩]
    | none => []
  pure (outdated, vulnerable)

/-- `analyzeJavaScriptDependencies`.  The file-system read is explicit:
`none` means no `package.json` (zero-value result); `some (.error ())`
means the file exists but is not valid JSON, in which case `fs.readJson`
throws and the exception propagates (there is no try/catch in the
source); `some (.ok m)` is a parsed manifest. -/
def analyzeJavaScriptDependencies
    (manifest : Option (Except Unit JsManifest)) :
    Except String DependencyAnalysis := do
  match manifest with
  | none => pure ⟨0, [], []⟩
  | some (Except.error ()) =>
    Except.error "SyntaxError: Unexpected token in JSON"
  | some (Except.ok packageJson) =>
    let dependencies := mergeDeps packageJson.dependencies
                                  packageJson.devDependencies
    let total := dependencies.length
    let classified ← dependencies.mapM classifyJsDep
    pure ⟨total, (classified.map Prod.fst).flatten,
          (classified.map Prod.snd).flatten⟩

/-- `mockLatestVersions` of `analyzePythonDependencies`. -/
def pyMockLatestVersions : List (String × String) :=
  [("django", "4.2.5"), ("flask", "2.3.3"), ("requests", "2.31.0"),
   ("numpy", "1.24.3"), ("pandas", "2.0.3")]

/-- `mockVulnerabilities` of `analyzePythonDependencies`. -/
def pyMockVulnerabilities : List (String × String × Sev) :=
  [("django", ("SQL Injection (CVE-2023-36053)", Sev.high)),
   ("requests", ("Certificate Verification Bypass", Sev.medium))]

/-- Is `c` matched by the character class `[a-zA-Z0-9\-_]`? -/
def pyNameChar (c : Char) : Bool :=
  c.isAlpha || c.isDigit || c == '-' || c == '_'

/-- Is `c` matched by the character class `[>=<~!]`? -/
def pyOpChar (c : Char) : Bool :=
  c == '>' || c == '=' || c == '<' || c == '~' || c == '!'

/-- A JS regex line terminator (`.` never matches these and `$` without
the `m` flag only matches at the very end of the string). -/
def isJsLineTerm (c : Char) : Bool :=
  c == '\r' || c == '\n' || c.toNat == 8232 || c.toNat == 8233

/-- The match of `/^([a-zA-Z0-9\-_]+)([>=<~!]+)?(.+)?$/` against a line:
greedy name run, then greedy operator run, then the rest (group 3 is
`undefined` when the rest is empty).  The regex fails when the line does
not start with a name character, or when it contains a line terminator
(such as a stray `\r`), since `.` cannot match one and `$` only matches
at the end. -/
def pyParseLine (line : String) :
    Option (String × Option String × Option String) :=
  let cs := line.toList
  let name := cs.takeWhile pyNameChar
  if name.isEmpty || cs.any isJsLineTerm then none
  else
    let rest1 := cs.drop name.length
    let op := rest1.takeWhile pyOpChar
    let rest2 := rest1.drop op.length
    some (String.mk name,
          if op.isEmpty then none else some (String.mk op),
          if rest2.isEmpty then none else some (String.mk rest2))

/-- The per-line body of the `analyzePythonDependencies` loop: a line that
fails the regex is skipped (`continue`); otherwise the fixed Python
lookup tables are consulted (outdated severity fixed at `medium`, latest
compared by string inequality). -/
def classifyPyLine (line : String) :
    List OutdatedDep × List VulnerableDep :=
  match pyParseLine line with
  | none => ([], [])
  | some (name, _, version) =>
    let currentVersion := version.getD "0.0.0"
    let outdated :=
      match tblLookup pyMockLatestVersions name with
      | some latestVersion =>
        if currentVersion != latestVersion then
          [⟨name, currentVersion, latestVersion, Sev.medium⟩]
        else []
      | none => []
    let vulnerable :=
      match tblLookup pyMockVulnerabilities name with
      | some v => [⟨name, currentVersion, v.fst, v.snd⟩]
      | none => []
    (outdated, vulnerable)

/-- The line filter of `analyzePythonDependencies`: keep lines whose trim
is non-empty and that do not start with `#`. -/
def pyKeepLine (line : String) : Bool :=
  (jsTrim line) != "" && !(strStarts line "#")

/-- The body of `analyzePythonDependencies` after the file has been read
and split on `\n`. -/
def analyzePythonLines (rawLines : List String) : DependencyAnalysis :=
  let lines := rawLines.filter pyKeepLine
  let classified := lines.map classifyPyLine
  ⟨lines.length, (classified.map Prod.fst).flatten,
   (classified.map Prod.snd).flatten⟩

/-- `analyzePythonDependencies`.  `none` means no `requirements.txt`
(zero-value result); `some content` is the file content, split on `\n`.
Nothing in this path can throw: unmatched lines are skipped. -/
def analyzePythonDependencies (content : Option String) :
    DependencyAnalysis :=
  match content with
  | none => ⟨0, [], []⟩
  | some c => analyzePythonLines (splitLines c)

/-! ## Static pattern analyzer (`static-analyzer.ts`)

The analyzers below take the list of `(relativePath, content)` pairs that
`findFiles` discovered (file discovery itself is directory I/O; the
per-file and per-line heuristics are the pure computation embedded
here). -/

/-- JS `\w`: `[A-Za-z0-9_]`. -/
def wordChar (c : Char) : Bool :=
  c.isAlpha || c.isDigit || c == '_'

/-- Match one alternative of `/(?:var|let|const)\s+(\w+)/` at the head of
`cs`: the keyword, then at least one whitespace, then the greedy word-char
capture. -/
def varCaptureKw (kw : String) (cs : List Char) : Option String :=
  if listStarts kw.toList cs then
    let rest := cs.drop kw.length
    let ws := rest.takeWhile jsWsChar
    if ws.isEmpty then none
    else
      let w := (rest.drop ws.length).takeWhile wordChar
      if w.isEmpty then none else some (String.mk w)
  else none

/-- Match `/(?:var|let|const)\s+(\w+)/` at the head of `cs`, alternatives
tried in regex order. -/
def varCaptureAt (cs : List Char) : Option String :=
  (varCaptureKw "var" cs).orElse fun _ =>
    (varCaptureKw "let" cs).orElse fun _ =>
      varCaptureKw "const" cs

/-- First (leftmost) match of `/(?:var|let|const)\s+(\w+)/`, returning
the captured identifier: `trimmedLine.match(...)[1]` in the source. -/
def findVarCapture : List Char → Option String
  | [] => none
  | c :: rest =>
    (varCaptureAt (c :: rest)).orElse fun _ => findVarCapture rest

/-- The per-line checks of `analyzeJavaScript`, in source order.
`content` is the whole file (the JSON.parse and unused-variable checks
consult it); `line` is the raw line from `content.split('\n')`. -/
def jsLineFindings (file content : String) (lineNumber : Nat)
    (line : String) : List Finding :=
  let t := jsTrim line
  (if strIncludes t "query" && strIncludes t "+" && strIncludes t "SELECT" then
    [⟨file, lineNumber, "Potential SQL injection vulnerability", FSev.error,
      some "security/detect-sql-injection"⟩]
   else []) ++
  (if strIncludes t "password" && (strIncludes t "=" || strIncludes t ":") &&
      (t.toList.contains '"' || t.toList.contains '\'') then
    [⟨file, lineNumber, "Hardcoded credentials detected", FSev.error,
      some "security/detect-hardcoded-credentials"⟩]
   else []) ++
  (if strIncludes t "eval(" then
    [⟨file, lineNumber, "Use of eval() is dangerous and should be avoided",
      FSev.error, some "security/detect-eval-with-expression"⟩]
   else []) ++
  (if strIncludes t "Sync(" && !strIncludes t "//" then
    [⟨file, lineNumber,
      "Synchronous function in async context may block event loop",
      FSev.warning, some "performance/no-sync-in-async"⟩]
   else []) ++
  (if strIncludes t "console.log(" && !strIncludes t "//" then
    [⟨file, lineNumber, "Console.log should be removed in production code",
      FSev.warning, some "no-console"⟩]
   else []) ++
  (if strIncludes t "JSON.parse(" && !strIncludes content "try" &&
      !strIncludes content "catch" then
    [⟨file, lineNumber, "JSON.parse should be wrapped in try-catch",
      FSev.warning, some "error-handling/json-parse"⟩]
   else []) ++
  (match findVarCapture t.toList with
   | some w =>
     if !strIncludes content (w ++ ".") && !strIncludes content (w ++ "(") then
       [⟨file, lineNumber,
         "Variable \x27" ++ w ++ "\x27 is declared but never used",
         FSev.warning, some "no-unused-vars"⟩]
     else []
   | none => [])

/-- All findings of one JavaScript file: `content.split('\n')`, then the
per-line checks with 1-based line numbers. -/
def jsFileFindings (file content : String) : List Finding :=
  ((splitLines content).enum.map
    (fun p => jsLineFindings file content (p.fst + 1) p.snd)).flatten

/-- `analyzeJavaScript` over the discovered `(relativePath, content)`
files: concatenated findings in file order, summary derived by filtering
the findings list. -/
def analyzeJavaScript (files : List (String × String)) :
    StaticAnalysisResult :=
  let errors := (files.map (fun f => jsFileFindings f.fst f.snd)).flatten
  { errors := errors
    summary :=
      { totalFiles := files.length
        totalErrors :=
          (errors.filter (fun e => e.severity == FSev.error)).length
        totalWarnings :=
          (errors.filter (fun e => e.severity == FSev.warning)).length } }

/-- The per-line checks of `analyzePython`, in source order.  `lines` is
the whole split file (the docstring check looks at the following line);
`line` is the raw line (the length check is on the untrimmed line). -/
def pyLineFindings (file : String) (lines : List String) (index : Nat)
    (line : String) : List Finding :=
  let lineNumber := index + 1
  let t := jsTrim line
  (if strIncludes t "execute(" && strIncludes t "%" && strIncludes t "SELECT" then
    [⟨file, lineNumber, "Potential SQL injection vulnerability", FSev.error,
      some "security/sql-injection"⟩]
   else []) ++
  (if strIncludes t "eval(" || strIncludes t "exec(" then
    [⟨file, lineNumber, "Use of eval() or exec() is dangerous", FSev.error,
      some "security/eval-exec"⟩]
   else []) ++
  (if (strIncludes t "password" || strIncludes t "secret") &&
      (strIncludes t "=" && (t.toList.contains '"' || t.toList.contains '\'')) then
    [⟨file, lineNumber, "Hardcoded secret detected", FSev.error,
      some "security/hardcoded-secret"⟩]
   else []) ++
  (if t == "except:" then
    [⟨file, lineNumber, "Bare except clause should specify exception type",
      FSev.warning, some "bare-except"⟩]
   else []) ++
  (if line.length > 100 then
    [⟨file, lineNumber, "Line too long (>100 characters)", FSev.warning,
      some "line-too-long"⟩]
   else []) ++
  (if strStarts t "def " &&
      !(match lines.get? (index + 1) with
        | some nxt => strStarts (jsTrim nxt) "\"\"\""
        | none => false) then
    [⟨file, lineNumber, "Function missing docstring", FSev.info,
      some "missing-docstring"⟩]
   else [])

/-- All findings of one Python file. -/
def pyFileFindings (file content : String) : List Finding :=
  let lines := splitLines content
  (lines.enum.map (fun p => pyLineFindings file lines p.fst p.snd)).flatten

/-- `analyzePython` over the discovered `(relativePath, content)` files. -/
def analyzePython (files : List (String × String)) :
    StaticAnalysisResult :=
  let errors := (files.map (fun f => pyFileFindings f.fst f.snd)).flatten
  { errors := errors
    summary :=
      { totalFiles := files.length
        totalErrors :=
          (errors.filter (fun e => e.severity == FSev.error)).length
        totalWarnings :=
          (errors.filter (fun e => e.severity == FSev.warning)).length } }

/-! ## Orchestrator (`analyzer.ts`) -/

/-- Node `path.extname` on a basename: the suffix from the last `.` that
is not the leading character (`""` for `.`, `..`, dotfiles and names
without a dot). -/
def extname (base : String) : String :=
  if base == "." || base == ".." then ""
  else
    let cs := base.toList
    let dots := (cs.enum.filter
      (fun p => p.snd == '.' && p.fst > 0)).map Prod.fst
    match dots.getLast? with
    | some i => String.mk (cs.drop i)
    | none => ""

/-- `detectLanguage`: marker files in the repository root in priority
order, then a fallback on the presence (not the majority) of known file
extensions anywhere in the tree, tried in the fixed order javascript,
python, java, rust, go; `"unknown"` when nothing matches.

Directory traversal is I/O: `files` is the result of
`fs.readdir(repoPath)` (the names in the repository root, files and
directories alike) and `allFiles` the result of the recursive
`getAllFiles` walk (which descends into every directory whose name does
not start with `.` and is not `node_modules`, collecting file paths;
only the basename of each path is relevant to `path.extname`). -/
def detectLanguage (files : List String) (allFiles : List String) : String :=
  if files.contains "package.json" then "javascript"
  else if files.contains "requirements.txt" || files.contains "setup.py" then
    "python"
  else if files.contains "Cargo.toml" then "rust"
  else if files.contains "go.mod" then "go"
  else if files.contains "pom.xml" || files.contains "build.gradle" then
    "java"
  else
    let extensions := allFiles.map (fun f => toLowerStr (extname f))
    if extensions.any (fun ext =>
        [".js", ".jsx", ".ts", ".tsx"].contains ext) then "javascript"
    else if extensions.any (fun ext => [".py"].contains ext) then "python"
    else if extensions.any (fun ext => [".java"].contains ext) then "java"
    else if extensions.any (fun ext => [".rs"].contains ext) then "rust"
    else if extensions.any (fun ext => [".go"].contains ext) then "go"
    else "unknown"

/-- The match `/\/([^\/]+)\.git$/`: a final `/<segment>.git` with a
non-empty slash-free segment. -/
def matchGitSuffix (url : String) : Option String :=
  if strEndsWith url ".git" then
    let s := (strDropRight url 4).toList
    let segRev := s.reverse.takeWhile (fun c => c != '/')
    if segRev.isEmpty then none
    else if (s.reverse.drop segRev.length).head? == some '/' then
      some (String.mk segRev.reverse)
    else none
  else none

/-- The match `/\/([^\/]+)\/?$/`: the last non-empty slash-free segment,
allowing one trailing slash. -/
def matchLastSegment (url : String) : Option String :=
  let t := if strEndsWith url "/" then strDropRight url 1 else url
  let segRev := t.toList.reverse.takeWhile (fun c => c != '/')
  if segRev.isEmpty then none
  else if (t.toList.reverse.drop segRev.length).head? == some '/' then
    some (String.mk segRev.reverse)
  else none

/-- `extractRepoName` from `analyzer.ts`. -/
def extractRepoName (repoUrl : String) : String :=
  if strIncludes repoUrl "demo" then "demo-repo"
  else
    match matchGitSuffix repoUrl with
    | some m => m
    | none =>
      match matchLastSegment repoUrl with
      | some m => m
      | none => "unknown-repo"

/-- `AnalysisResult.repository`. -/
structure RepoInfo where
  name : String
  url : String
  language : String
deriving DecidableEq, Repr

/-- `AnalysisResult` from `analyzer.ts` (the final `AnalysisReport`). -/
structure AnalysisResult where
  repository : RepoInfo
  dependencies : DependencyAnalysis
  staticAnalysis : StaticAnalysisResult
  aiSummary : AISummary
deriving DecidableEq, Repr

/-- `analyzeDemoRepository`: the fixed, hardcoded demo report. -/
def analyzeDemoRepository : AnalysisResult :=
  { repository :=
      { name := "vulnerable-todo-app", url := "demo",
        language := "javascript" }
    dependencies :=
      { total := 4
        outdated :=
          [⟨"express", "4.16.0", "4.18.2", Sev.medium⟩,
           ⟨"lodash", "4.17.4", "4.17.21", Sev.high⟩]
        vulnerable :=
          [⟨"lodash", "4.17.4", "Prototype Pollution (CVE-2019-10744)",
            Sev.high⟩,
           ⟨"bcrypt", "3.0.0", "Timing Attack Vulnerability", Sev.medium⟩] }
    staticAnalysis :=
      { errors :=
          [⟨"server.js", 15, "Potential SQL injection vulnerability",
            FSev.error, some "security/detect-sql-injection"⟩,
           ⟨"server.js", 8, "Hardcoded database credentials", FSev.error,
            some "security/detect-hardcoded-credentials"⟩,
           ⟨"utils.js", 14, "Use of eval() is dangerous", FSev.error,
            some "security/detect-eval-with-expression"⟩,
           ⟨"server.js", 35, "Synchronous function in async context",
            FSev.warning, some "performance/no-sync-in-async"⟩]
        summary := { totalFiles := 3, totalErrors := 3, totalWarnings := 1 } }
    aiSummary :=
      { riskLevel := Sev.high
        summary := "This repository contains several critical security vulnerabilities including SQL injection, hardcoded credentials, and dangerous use of eval(). The outdated dependencies also introduce additional security risks."
        recommendations :=
          ["Immediately fix SQL injection vulnerabilities by using parameterized queries",
           "Remove hardcoded database credentials and use environment variables",
           "Replace eval() usage with safer alternatives like JSON.parse()",
           "Update all dependencies to their latest secure versions",
           "Implement input validation and sanitization",
           "Add security headers and CORS protection"]
        priorityFixes :=
          ["Fix SQL injection in server.js line 15",
           "Remove hardcoded credentials in server.js line 8",
           "Update lodash to fix prototype pollution vulnerability"] } }

/-- The views of a fetched repository that the analyzers consume: the
root directory listing (language detection), the manifest reads
(dependency analyzer) and the files discovered by `findFiles` (static
analyzer). -/
structure LocalRepo where
  rootEntries : List String
  allFiles : List String
  jsManifest : Option (Except Unit JsManifest)
  pyRequirements : Option String
  jsFiles : List (String × String)
  pyFiles : List (String × String)

/-- `analyzeRepository`: the orchestrator pipeline.  The clone
collaborator is a parameter (`Except.error` = clone failure, which
propagates).  The returned `Bool` records whether the clone collaborator
was invoked at all: the demo short-circuit (`repoUrl.includes('demo') ||
repoUrl === 'demo'`) returns the hardcoded report before any clone.  The
summarizer step is the deterministic no-credential fallback
(`generateMockSummary`), per the AI-summary module. -/
def analyzeRepositoryModel (cloneRepository : String → Except String LocalRepo)
    (repoUrl : String) : Except String AnalysisResult × Bool :=
  if strIncludes repoUrl "demo" || repoUrl == "demo" then
    (Except.ok analyzeDemoRepository, false)
  else
    match cloneRepository repoUrl with
    | Except.error e => (Except.error e, true)
    | Except.ok repo =>
      let language := detectLanguage repo.rootEntries repo.allFiles
      let dependencies :=
        if language == "javascript" then
          analyzeJavaScriptDependencies repo.jsManifest
        else if language == "python" then
          Except.ok (analyzePythonDependencies repo.pyRequirements)
        else Except.ok ⟨0, [], []⟩
      match dependencies with
      | Except.error e => (Except.error e, true)
      | Except.ok deps =>
        let staticAnalysis :=
          if language == "javascript" then analyzeJavaScript repo.jsFiles
          else if language == "python" then analyzePython repo.pyFiles
          else ⟨[], ⟨0, 0, 0⟩⟩
        let aiSummary := generateMockSummary deps staticAnalysis
        (Except.ok
          ⟨⟨extractRepoName repoUrl, repoUrl, language⟩, deps,
           staticAnalysis, aiSummary⟩, true)

/-! ## Upload route text filter (`routes/upload.ts`) -/

/-- `isTextContent`: reject on a null byte, then require
`content.replace(/[\r\n\t]/g, '').length / content.length > 0.7`.  Note
that the numerator merely removes `\r`, `\n`, `\t` — every other
character, printable or not, is counted.  The float comparison
`p / t > 0.7` is modelled exactly as `10 * p > 7 * t` (for `t = 0` the
source computes `NaN > 0.7`, which is also `false`). -/
def isTextContent (content : String) : Bool :=
  if content.toList.contains '\x00' then false
  else
    let printableChars := (content.toList.filter
      (fun c => !(c == '\r' || c == '\n' || c == '\t'))).length
    let totalChars := content.length
    10 * printableChars > 7 * totalChars

/-- The text filter as §4.1(d) of the specification words it: only
characters that are actually printable (and outside `\r\n\t`) count
toward the ratio.  Printability is taken as ASCII printable or
non-ASCII. -/
def printableSpec (c : Char) : Bool :=
  (32 ≤ c.toNat && c.toNat ≠ 127) || c.toNat > 127

/-- Modelled from the spec (§4.1(d)): the printable-character-ratio
filter the specification describes, for comparison with the source's
`isTextContent`. -/
def isTextContentSpecModel (content : String) : Bool :=
  if content.toList.contains '\x00' then false
  else
    let printable := (content.toList.filter
      (fun c => !(c == '\r' || c == '\n' || c == '\t') && printableSpec c)).length
    10 * printable > 7 * content.length

/-! ## Spec-side comparison definitions and scenario fixtures -/

-- Decidable equality for `Except` results of the dependency analyzer.
deriving instance DecidableEq for Except

/-- The fallback risk-level rule exactly as §4.4 of the specification
words it: `critical` if some vulnerability has severity `critical`; else
`high` if (count of high-severity vulnerabilities + count of static
`error` findings) > 2; else `medium` if that same sum > 0 or (count of
medium-severity outdated deps + count of static `warning` findings) > 3;
else `low`. -/
def specRiskLevel (deps : DependencyAnalysis) (sa : StaticAnalysisResult) : Sev :=
  if ∃ v ∈ deps.vulnerable, v.severity = Sev.critical then Sev.critical
  else if deps.vulnerable.countP (fun v => v.severity == Sev.high) +
          sa.errors.countP (fun f => f.severity == FSev.error) > 2 then Sev.high
  else if deps.vulnerable.countP (fun v => v.severity == Sev.high) +
            sa.errors.countP (fun f => f.severity == FSev.error) > 0 ∨
          deps.outdated.countP (fun d => d.severity == Sev.medium) +
            sa.errors.countP (fun f => f.severity == FSev.warning) > 3 then Sev.medium
  else Sev.low

/-- The summary-count invariant of §3 / §8: the summary's error and
warning totals count exactly the findings of those severities, and the
two totals exhaust the findings list exactly when no `info`-severity
finding exists. -/
def CountInvariant (r : StaticAnalysisResult) : Prop :=
  r.summary.totalErrors = r.errors.countP (fun f => f.severity == FSev.error) ∧
  r.summary.totalWarnings = r.errors.countP (fun f => f.severity == FSev.warning) ∧
  r.summary.totalErrors + r.summary.totalWarnings ≤ r.errors.length ∧
  (r.summary.totalErrors + r.summary.totalWarnings = r.errors.length ↔
    ∀ f ∈ r.errors, f.severity ≠ FSev.info)

/-- The marker files of §4.5's language-detection priority list. -/
def markerFiles : List String :=
  ["package.json", "requirements.txt", "setup.py", "Cargo.toml", "go.mod",
   "pom.xml", "build.gradle"]

/-- What the extension fallback of `detectLanguage` actually computes: a
fixed priority order on the presence of known extensions (javascript
before python before java before rust before go), not a majority vote. -/
def extPriorityVote (allFiles : List String) : String :=
  let extensions := allFiles.map (fun f => toLowerStr (extname f))
  if extensions.any (fun ext =>
      [".js", ".jsx", ".ts", ".tsx"].contains ext) then "javascript"
  else if extensions.any (fun ext => [".py"].contains ext) then "python"
  else if extensions.any (fun ext => [".java"].contains ext) then "java"
  else if extensions.any (fun ext => [".rs"].contains ext) then "rust"
  else if extensions.any (fun ext => [".go"].contains ext) then "go"
  else "unknown"

/-- Scenario A input: the parsed manifest
`{dependencies:{"lodash":"4.17.4"}}`. -/
def scenarioAManifest : Option (Except Unit JsManifest) :=
  some (Except.ok ⟨[("lodash", "4.17.4")], []⟩)

/-- Scenario B input: the single JavaScript line. -/
def scenarioBLine : String :=
  "const query = \"SELECT * FROM t WHERE id = \" + id;"

/-- Ten U+0001 control characters: not printable, but none of them is a
null byte, `\r`, `\n` or `\t`. -/
def controlBytesContent : String :=
  String.mk (List.replicate 10 '\x01')

/-- A manifest declaring `alpha` both as a dependency and a
devDependency, plus `beta`: two distinct names over three declarations. -/
def c6Manifest : JsManifest :=
  ⟨[("alpha", "1.0.0")], [("alpha", "2.0.0"), ("beta", "1.0.0")]⟩

/-- A fetched repository whose root holds a `package.json` that is not
valid JSON (used to exhibit the fatal JavaScript manifest path). -/
def badManifestRepo : LocalRepo :=
  { rootEntries := ["package.json"], allFiles := ["package.json"],
    jsManifest := some (Except.error ()), pyRequirements := none,
    jsFiles := [], pyFiles := [] }

/-! ## Helper lemmas -/

/-- The recommendation fallback guarantees a non-empty list even after
the cap at six. -/
theorem take6_pos (l : List String) (a b c : String) :
    1 ≤ ((if l.length == 0 then [a, b, c] else l).take 6).length := by
  split
  · simp
  · next h =>
    rw [List.length_take]
    have hl : l.length ≠ 0 := by simpa using h
    simp [Nat.le_min]
    omega

/-- Every finding severity is exactly one of error, warning, info, so the
three counts partition the findings list. -/
theorem sev_count_split (l : List Finding) :
    l.countP (fun f => f.severity == FSev.error) +
    l.countP (fun f => f.severity == FSev.warning) +
    l.countP (fun f => f.severity == FSev.info) = l.length := by
  induction l with
  | nil => simp
  | cons f t ih =>
    cases hf : f.severity <;> simp [List.countP_cons, hf] <;> omega

/-- Any result whose summary counts are computed by filtering its own
findings list satisfies the count invariant. -/
theorem countInvariant_of (errors : List Finding) (tf : Nat) :
    CountInvariant ⟨errors, ⟨tf,
      (errors.filter (fun e => e.severity == FSev.error)).length,
      (errors.filter (fun e => e.severity == FSev.warning)).length⟩⟩ := by
  have hs := sev_count_split errors
  refine ⟨by simp [List.countP_eq_length_filter],
    by simp [List.countP_eq_length_filter], ?_, ?_⟩
  · simp only [← List.countP_eq_length_filter]
    omega
  · simp only [← List.countP_eq_length_filter]
    constructor
    · intro h f hf hinfo
      have : 0 < errors.countP (fun f => f.severity == FSev.info) :=
        List.countP_pos_iff.mpr ⟨f, hf, by simp [hinfo]⟩
      omega
    · intro h
      have hz : errors.countP (fun f => f.severity == FSev.info) = 0 :=
        List.countP_eq_zero.mpr (fun f hf => by simpa using h f hf)
      omega

/-! ## Claim theorems -/

/-- C5: the fallback summarizer is total: for every input pair it returns
an `AISummary` whose risk level is one of low/medium/high/critical, whose
recommendations list is non-empty of length at most 6, and whose priority
fixes list has length at most 5.  (Totality itself is witnessed by
`generateMockSummary` being a Lean function.) -/
theorem generateMockSummary_total (deps : DependencyAnalysis)
    (sa : StaticAnalysisResult) :
    (generateMockSummary deps sa).riskLevel ∈
      [Sev.low, Sev.medium, Sev.high, Sev.critical] ∧
    1 ≤ (generateMockSummary deps sa).recommendations.length ∧
    (generateMockSummary deps sa).recommendations.length ≤ 6 ∧
    (generateMockSummary deps sa).priorityFixes.length ≤ 5 := by
  refine ⟨?_, ?_, ?_, ?_⟩
  · cases h : (generateMockSummary deps sa).riskLevel <;> simp
  · show 1 ≤ (generateRecommendations deps sa).length
    unfold generateRecommendations
    exact take6_pos _ _ _ _
  · show (generateRecommendations deps sa).length ≤ 6
    unfold generateRecommendations
    exact List.length_take_le _ _
  · show (generatePriorityFixes deps sa).length ≤ 5
    unfold generatePriorityFixes
    exact List.length_take_le _ _

/-- C5 witness: the guarantees of `generateMockSummary_total` at the
empty input. -/
theorem generateMockSummary_total_witness :
    (generateMockSummary ⟨0, [], []⟩ ⟨[], ⟨0, 0, 0⟩⟩).riskLevel ∈
      [Sev.low, Sev.medium, Sev.high, Sev.critical] ∧
    1 ≤ (generateMockSummary ⟨0, [], []⟩ ⟨[], ⟨0, 0, 0⟩⟩).recommendations.length ∧
    (generateMockSummary ⟨0, [], []⟩ ⟨[], ⟨0, 0, 0⟩⟩).recommendations.length ≤ 6 ∧
    (generateMockSummary ⟨0, [], []⟩ ⟨[], ⟨0, 0, 0⟩⟩).priorityFixes.length ≤ 5 :=
  generateMockSummary_total ⟨0, [], []⟩ ⟨[], ⟨0, 0, 0⟩⟩

/-- C2: the fallback risk level matches the specification's formula
(`specRiskLevel`), and adding one critical-severity vulnerability to an
input whose risk level was not `critical` forces the risk level to
`critical`. -/
theorem generateMockSummary_riskLevel_spec :
    (∀ deps sa, (generateMockSummary deps sa).riskLevel = specRiskLevel deps sa) ∧
    (∀ deps sa (v : VulnerableDep), v.severity = Sev.critical →
      (generateMockSummary deps sa).riskLevel ≠ Sev.critical →
      (generateMockSummary { deps with vulnerable := v :: deps.vulnerable } sa).riskLevel =
        Sev.critical) := by
  constructor
  · intro deps sa
    show mockRiskLevel deps sa = specRiskLevel deps sa
    unfold mockRiskLevel specRiskLevel
    simp only [← List.countP_eq_length_filter, Bool.or_eq_true, decide_eq_true_eq]
    have hcrit : (deps.vulnerable.countP fun v => v.severity == Sev.critical) > 0 ↔
        ∃ v ∈ deps.vulnerable, v.severity = Sev.critical := by
      rw [gt_iff_lt, List.countP_pos_iff]
      simp
    split_ifs with h1 h2 h3 h4 h5 h6 h7 <;>
      first
        | rfl
        | (exact absurd (hcrit.mp (by assumption)) (by assumption))
        | (exact absurd (hcrit.mpr (by assumption)) (by assumption))
  · intro deps sa v hv _
    show mockRiskLevel _ _ = _
    simp [mockRiskLevel, List.filter_cons, hv]

/-- C2 witness: a concrete non-critical input (the empty analysis, risk
level `low`) becomes `critical` after adding one critical
vulnerability. -/
theorem generateMockSummary_riskLevel_spec_witness :
    (generateMockSummary ⟨0, [], [⟨"pkg", "1.0.0", "RCE", Sev.critical⟩]⟩
      ⟨[], ⟨0, 0, 0⟩⟩).riskLevel = Sev.critical :=
  generateMockSummary_riskLevel_spec.2 ⟨0, [], []⟩ ⟨[], ⟨0, 0, 0⟩⟩
    ⟨"pkg", "1.0.0", "RCE", Sev.critical⟩ rfl (by decide)

/-- C7: for both static-analyzer paths, the summary's totals count the
error- and warning-severity findings exactly, `info` findings count in
neither, and the two totals sum to the findings-list length exactly when
no `info` finding exists. -/
theorem staticAnalysis_count_invariant (files : List (String × String)) :
    CountInvariant (analyzeJavaScript files) ∧
    CountInvariant (analyzePython files) :=
  ⟨countInvariant_of _ _, countInvariant_of _ _⟩

/-- C7 witness: the count invariant at a one-file Python repository
(whose analysis produces an `info` finding, so the inequality is
strict). -/
theorem staticAnalysis_count_invariant_witness :
    CountInvariant (analyzeJavaScript [("a.py", "def f():")]) ∧
    CountInvariant (analyzePython [("a.py", "def f():")]) :=
  staticAnalysis_count_invariant [("a.py", "def f():")]

/-- C8 (Scenario B): on the single line
`const query = "SELECT * FROM t WHERE id = " + id;`, the JavaScript
analyzer's error-severity findings are exactly one SQL-injection finding
at line 1 with rule `security/detect-sql-injection`. -/
theorem scenarioB_sql_injection :
    ((analyzeJavaScript [("app.js", scenarioBLine)]).errors.filter
      (fun f => f.severity == FSev.error)) =
    [⟨"app.js", 1, "Potential SQL injection vulnerability", FSev.error,
      some "security/detect-sql-injection"⟩] := by decide

/-- A key is absent from an association-list lookup exactly when it is
not among the keys. -/
theorem tblLookup_eq_none {α : Type} {tbl : List (String × α)} {k : String} :
    tblLookup tbl k = none ↔ k ∉ tbl.map Prod.fst := by
  unfold tblLookup
  rw [Option.map_eq_none', List.find?_eq_none]
  simp only [List.mem_map, beq_iff_eq]
  constructor
  · rintro h ⟨p, hp, rfl⟩
    exact h p hp rfl
  · rintro h p hp hk
    exact h ⟨p, hp, hk⟩

/-- The names of the merged dependency mapping: the first object's keys
followed by the second object's new keys. -/
theorem mergeDeps_names (d dd : List (String × String)) :
    (mergeDeps d dd).map Prod.fst =
      d.map Prod.fst ++
      (dd.filter (fun p => (tblLookup d p.fst).isNone)).map Prod.fst := by
  unfold mergeDeps
  rw [List.map_append]
  congr 1
  rw [List.map_map]
  apply List.map_congr_left
  intro p _
  simp only [Function.comp]
  cases h : tblLookup dd p.fst <;> simp [h]

/-- Merged keys are distinct when each object's keys are. -/
theorem mergeDeps_names_nodup (d dd : List (String × String))
    (hd : (d.map Prod.fst).Nodup) (hdd : (dd.map Prod.fst).Nodup) :
    ((mergeDeps d dd).map Prod.fst).Nodup := by
  rw [mergeDeps_names]
  apply List.Nodup.append hd
  · exact List.Nodup.sublist (List.Sublist.map Prod.fst (List.filter_sublist dd))
      hdd
  · intro x hx1 hx2
    rw [List.mem_map] at hx2
    obtain ⟨p, hp, rfl⟩ := hx2
    rw [List.mem_filter] at hp
    have : tblLookup d p.fst = none := by
      cases hl : tblLookup d p.fst
      · rfl
      · rw [hl] at hp; simp [Option.isNone] at hp
    exact absurd hx1 (tblLookup_eq_none.mp this)

/-- The merged keys are exactly the keys of either object. -/
theorem mergeDeps_names_mem (d dd : List (String × String)) (x : String) :
    x ∈ (mergeDeps d dd).map Prod.fst ↔
      x ∈ d.map Prod.fst ∨ x ∈ dd.map Prod.fst := by
  rw [mergeDeps_names, List.mem_append]
  constructor
  · rintro (h | h)
    · exact Or.inl h
    · refine Or.inr ?_
      rw [List.mem_map] at h ⊢
      obtain ⟨p, hp, rfl⟩ := h
      exact ⟨p, (List.mem_filter.mp hp).1, rfl⟩
  · rintro (h | h)
    · exact Or.inl h
    · by_cases hxd : x ∈ d.map Prod.fst
      · exact Or.inl hxd
      · refine Or.inr ?_
        rw [List.mem_map] at h ⊢
        obtain ⟨p, hp, rfl⟩ := h
        refine ⟨p, List.mem_filter.mpr ⟨hp, ?_⟩, rfl⟩
        rw [Option.isNone_iff_eq_none]
        exact tblLookup_eq_none.mpr hxd

/-- The size of the merged mapping is the number of distinct declared
names. -/
theorem mergeDeps_length_distinct (d dd : List (String × String))
    (hd : (d.map Prod.fst).Nodup) (hdd : (dd.map Prod.fst).Nodup) :
    (mergeDeps d dd).length =
      (d.map Prod.fst ++ dd.map Prod.fst).toFinset.card := by
  have h1 : (mergeDeps d dd).length =
      ((mergeDeps d dd).map Prod.fst).length := by
    rw [List.length_map]
  rw [h1, ← List.toFinset_card_of_nodup (mergeDeps_names_nodup d dd hd hdd)]
  congr 1
  ext x
  simp only [List.mem_toFinset, List.mem_append]
  exact mergeDeps_names_mem d dd x

/-- The JavaScript analyzer's `total` is the size of the merged mapping,
hence the number of distinct declared names. -/
theorem analyzeJs_total_distinct (m : JsManifest) (r : DependencyAnalysis)
    (hd : (m.dependencies.map Prod.fst).Nodup)
    (hdd : (m.devDependencies.map Prod.fst).Nodup)
    (hr : analyzeJavaScriptDependencies (some (Except.ok m)) = Except.ok r) :
    r.total = ((m.dependencies.map Prod.fst) ++
               (m.devDependencies.map Prod.fst)).toFinset.card := by
  have htot : r.total = (mergeDeps m.dependencies m.devDependencies).length := by
    simp only [analyzeJavaScriptDependencies] at hr
    rcases hmm : (mergeDeps m.dependencies m.devDependencies).mapM classifyJsDep
      with e | cl
    · rw [hmm] at hr
      simp [Except.bind] at hr
    · rw [hmm] at hr
      have h2 := Except.ok.inj hr
      rw [← h2]
  rw [htot]
  exact mergeDeps_length_distinct m.dependencies m.devDependencies hd hdd

/-- Root names outside the marker list never satisfy a marker check. -/
theorem not_contains_of_all_marker {files : List String}
    (h : files.all (fun n => !(markerFiles.contains n)) = true)
    {x : String} (hx : markerFiles.contains x = true) :
    files.contains x = false := by
  rw [List.all_eq_true] at h
  by_contra hc
  rw [Bool.not_eq_false] at hc
  have hmem : x ∈ files := by simpa using hc
  have hnot := h x hmem
  simp at hnot hx
  exact hnot hx

/-- C1 counterexample (Scenario A as stated): on the manifest
`{dependencies:{"lodash":"4.17.4"}}` the analyzer does NOT return an
outdated record of severity `high` — only the patch component differs
between 4.17.4 and 4.17.21, so §4.2's own rule gives `low`. -/
theorem scenarioA_not_high :
    analyzeJavaScriptDependencies scenarioAManifest ≠
      Except.ok ⟨1, [⟨"lodash", "4.17.4", "4.17.21", Sev.high⟩],
        [⟨"lodash", "4.17.4", "Prototype Pollution (CVE-2019-10744)",
          Sev.high⟩]⟩ := by decide

/-- C1 amended: Scenario A with the outdated severity corrected to
`low` (total, latest, and the vulnerable record are as claimed). -/
theorem scenarioA_result :
    analyzeJavaScriptDependencies scenarioAManifest =
      Except.ok ⟨1, [⟨"lodash", "4.17.4", "4.17.21", Sev.low⟩],
        [⟨"lodash", "4.17.4", "Prototype Pollution (CVE-2019-10744)",
          Sev.high⟩]⟩ := by decide

/-- C3 counterexample: an existing but unparseable `package.json` is NOT
skipped — `fs.readJson` throws and the JavaScript dependency analyzer
propagates the exception instead of returning a `DependencyAnalysis`. -/
theorem unparseable_manifest_throws :
    analyzeJavaScriptDependencies (some (Except.error ())) =
      Except.error "SyntaxError: Unexpected token in JSON" := rfl

/-- C3 amended: malformed `requirements.txt` lines are skip-and-continue
(appending one adds nothing to `outdated`/`vulnerable` and one to
`total`), but an unparseable `package.json` is fatal to the whole
pipeline: the orchestrator run ends in the propagated parse error. -/
theorem malformed_manifest_behavior :
    (∀ (rawLines : List String) (l : String), pyKeepLine l = true →
      pyParseLine l = none →
      (analyzePythonLines (rawLines ++ [l])).outdated =
        (analyzePythonLines rawLines).outdated ∧
      (analyzePythonLines (rawLines ++ [l])).vulnerable =
        (analyzePythonLines rawLines).vulnerable ∧
      (analyzePythonLines (rawLines ++ [l])).total =
        (analyzePythonLines rawLines).total + 1) ∧
    (∀ (clone : String → Except String LocalRepo) (url : String)
      (repo : LocalRepo),
      strIncludes url "demo" = false → (url == "demo") = false →
      clone url = Except.ok repo →
      detectLanguage repo.rootEntries repo.allFiles = "javascript" →
      repo.jsManifest = some (Except.error ()) →
      (analyzeRepositoryModel clone url).fst =
        Except.error "SyntaxError: Unexpected token in JSON") := by
  constructor
  · intro rawLines l hkeep hparse
    simp [analyzePythonLines, List.filter_append, hkeep, classifyPyLine, hparse]
  · intro clone url repo hdemo hexact hclone hlang hman
    unfold analyzeRepositoryModel
    rw [hdemo, hexact]
    simp only [Bool.or_self, Bool.false_or, if_false]
    rw [hclone]
    simp [hlang, hman, analyzeJavaScriptDependencies]

/-- C3 witness: one malformed requirements line bumps only `total`, and a
concrete unparseable `package.json` aborts the concrete pipeline run. -/
theorem malformed_manifest_behavior_witness :
    (analyzePythonLines (["flask==2.0.0"] ++ ["!!!badline"])).total =
      (analyzePythonLines ["flask==2.0.0"]).total + 1 ∧
    (analyzeRepositoryModel (fun _ => Except.ok badManifestRepo)
      "https://github.com/acme/app").fst =
      Except.error "SyntaxError: Unexpected token in JSON" :=
  ⟨(malformed_manifest_behavior.1 ["flask==2.0.0"] "!!!badline"
      (by decide) (by decide)).2.2,
   malformed_manifest_behavior.2 _ "https://github.com/acme/app"
     badManifestRepo (by decide) (by decide) rfl (by decide) rfl⟩

/-- C4 counterexample: a marker-free tree with two `.py` files and one
`.js` file — the majority is python, yet detection answers javascript,
because the fallback tests extension presence in a fixed priority order
rather than taking a majority vote. -/
theorem detectLanguage_not_majority :
    detectLanguage ["a.py", "b.py", "c.js"] ["a.py", "b.py", "c.js"] =
      "javascript" ∧
    (["a.py", "b.py", "c.js"].countP
      (fun f => toLowerStr (extname f) == ".py") = 2 ∧
     ["a.py", "b.py", "c.js"].countP
      (fun f => toLowerStr (extname f) == ".js") = 1) ∧
    ["a.py", "b.py", "c.js"].all (fun n => !(markerFiles.contains n)) = true ∧
    "javascript" ≠ "python" := by decide

/-- C4 amended: on marker-free roots, detection equals the fixed
priority-order presence test `extPriorityVote` (javascript before python
before java before rust before go), with `"unknown"` exactly when no file
has a known extension. -/
theorem detectLanguage_priority_fallback (files allFiles : List String)
    (h : files.all (fun n => !(markerFiles.contains n)) = true) :
    detectLanguage files allFiles = extPriorityVote allFiles := by
  have h1 := not_contains_of_all_marker h (x := "package.json") (by decide)
  have h2 := not_contains_of_all_marker h (x := "requirements.txt") (by decide)
  have h3 := not_contains_of_all_marker h (x := "setup.py") (by decide)
  have h4 := not_contains_of_all_marker h (x := "Cargo.toml") (by decide)
  have h5 := not_contains_of_all_marker h (x := "go.mod") (by decide)
  have h6 := not_contains_of_all_marker h (x := "pom.xml") (by decide)
  have h7 := not_contains_of_all_marker h (x := "build.gradle") (by decide)
  unfold detectLanguage extPriorityVote
  rw [h1, h2, h3, h4, h5, h6, h7]
  simp

/-- C4 witness: the amended detection equality at a concrete marker-free
Rust tree. -/
theorem detectLanguage_priority_fallback_witness :
    ["main.rs", "lib.rs"].all (fun n => !(markerFiles.contains n)) = true ∧
    detectLanguage ["main.rs", "lib.rs"] ["main.rs", "lib.rs"] =
      extPriorityVote ["main.rs", "lib.rs"] :=
  ⟨by decide, detectLanguage_priority_fallback ["main.rs", "lib.rs"]
    ["main.rs", "lib.rs"] (by decide)⟩

/-- C6 counterexample: a `requirements.txt` declaring `django` on two
lines has one distinct declared name but `total = 2` — the Python path
counts lines, not distinct names. -/
theorem pythonTotal_counts_duplicates :
    (analyzePythonDependencies (some "django==4.2.5\ndjango==4.2.5")).total = 2 ∧
    ((splitLines "django==4.2.5\ndjango==4.2.5").filterMap
      (fun l => (pyParseLine l).map (fun p => p.fst))).dedup.length = 1 := by
  decide

/-- C6 amended: on the JavaScript path, `total` is the number of distinct
declared names (dependencies merged with devDependencies); on the Python
path, `total` is the number of non-blank, non-comment lines, counting a
duplicated name once per line. -/
theorem dependency_total_distinct :
    (∀ (m : JsManifest) (r : DependencyAnalysis),
      (m.dependencies.map Prod.fst).Nodup →
      (m.devDependencies.map Prod.fst).Nodup →
      analyzeJavaScriptDependencies (some (Except.ok m)) = Except.ok r →
      r.total = ((m.dependencies.map Prod.fst) ++
                 (m.devDependencies.map Prod.fst)).toFinset.card) ∧
    (∀ content : String,
      (analyzePythonDependencies (some content)).total =
        ((splitLines content).filter pyKeepLine).length) :=
  ⟨fun m r hd hdd hr => analyzeJs_total_distinct m r hd hdd hr,
   fun _ => rfl⟩

/-- C6 witness: the JavaScript total over `c6Manifest` (three
declarations, two distinct names) and the Python line count at a concrete
content. -/
theorem dependency_total_distinct_witness :
    (c6Manifest.dependencies.map Prod.fst).Nodup ∧
    (c6Manifest.devDependencies.map Prod.fst).Nodup ∧
    (⟨2, [], []⟩ : DependencyAnalysis).total =
      ((c6Manifest.dependencies.map Prod.fst) ++
       (c6Manifest.devDependencies.map Prod.fst)).toFinset.card ∧
    (analyzePythonDependencies (some "django\ndjango")).total =
      ((splitLines "django\ndjango").filter pyKeepLine).length :=
  ⟨by decide, by decide,
   dependency_total_distinct.1 c6Manifest ⟨2, [], []⟩ (by decide) (by decide)
     (by decide),
   dependency_total_distinct.2 "django\ndjango"⟩

/-- C9: the text filter accepts ten U+0001 control characters — the
implementation only strips `\r`, `\n`, `\t` before dividing by the
length, so it never tests printability; the specification's own ratio
(`isTextContentSpecModel`) rejects the same content. -/
theorem isTextContent_no_printability_check :
    isTextContent controlBytesContent = true ∧
    isTextContentSpecModel controlBytesContent = false := by decide

/-- C10: any reference containing `demo` as a substring short-circuits
the orchestrator to the fixed demo report (name `vulnerable-todo-app`,
4 dependencies) without ever invoking the clone collaborator. -/
theorem demo_substring_shortCircuit
    (clone : String → Except String LocalRepo) (url : String)
    (h : strIncludes url "demo" = true) :
    analyzeRepositoryModel clone url = (Except.ok analyzeDemoRepository, false) ∧
    analyzeDemoRepository.repository.name = "vulnerable-todo-app" ∧
    analyzeDemoRepository.dependencies.total = 4 := by
  refine ⟨?_, rfl, rfl⟩
  unfold analyzeRepositoryModel
  simp [h]

/-- C10 witness: the real-looking URL `https://github.com/acme/demo-app`
contains `demo`, and the pipeline returns the demo report with the clone
collaborator never invoked (even one that always fails). -/
theorem demo_substring_shortCircuit_witness :
    strIncludes "https://github.com/acme/demo-app" "demo" = true ∧
    analyzeRepositoryModel (fun _ => Except.error "network disabled")
      "https://github.com/acme/demo-app" =
      (Except.ok analyzeDemoRepository, false) :=
  ⟨by decide, (demo_substring_shortCircuit _ _ (by decide)).1⟩

end RepoGuardian
